import Mathlib

/-!
Verification of the random-search command surface of the
`astrbot_plugin_pixiv_reborn` plugin: the command handlers in
`handlers/random_illust.py`, the plugin lifecycle in `main.py`, and the
Tag Store / Scheduling Core they talk to.  Handler and lifecycle code is
embedded directly from the Python source; the Tag Store
(`utils/database`), the tag validator (`utils/tag`) and the scheduling
service (`utils/random_search`) are not part of the sources at hand and
are modelled from the specification where marked.
-/

set_option autoImplicit false

namespace PixivReborn

/-! ## Events and chat identity resolution -/

/-- The fields of an `AstrMessageEvent` that the random-search handlers
read.  `groupId = ""` models a falsy (absent) group id, matching the
Python idiom `event.get_group_id() or event.get_sender_id()`. -/
structure Event where
  groupId : String
  senderId : String
  umo : String
  deriving Repr, DecidableEq

/-- `event.get_group_id() or event.get_sender_id()`: group id when truthy,
else the sender id. -/
def resolveChatId (e : Event) : String :=
  if e.groupId ≠ "" then e.groupId else e.senderId

/-! ## Tag Store (`utils/database`), modelled from the spec -/

/-- Modelled from the spec: `ChatSearchConfig` of §3 — session handle,
ordered tag list (insertion order meaningful, duplicates allowed) and a
suspended flag. -/
structure ChatSearchConfig where
  sessionId : String
  tags : List String
  suspended : Bool
  deriving Repr, DecidableEq

/-- The durable Tag Store: a mapping from chat identity to its config,
kept as an association list. -/
structure TagStore where
  configs : List (String × ChatSearchConfig)
  deriving Repr, DecidableEq

def findCfg : List (String × ChatSearchConfig) → String → Option ChatSearchConfig
  | [], _ => none
  | (k, v) :: rest, c => if k = c then some v else findCfg rest c

def TagStore.cfg (st : TagStore) (chatId : String) : Option ChatSearchConfig :=
  findCfg st.configs chatId

def setCfgList : List (String × ChatSearchConfig) → String → ChatSearchConfig →
    List (String × ChatSearchConfig)
  | [], c, v => [(c, v)]
  | (k, w) :: rest, c, v =>
      if k = c then (c, v) :: rest else (k, w) :: setCfgList rest c v

def TagStore.setCfg (st : TagStore) (chatId : String) (v : ChatSearchConfig) : TagStore :=
  ⟨setCfgList st.configs chatId v⟩

/-- Modelled from the spec: `add_random_tag` of §4.1 — appends to the
chat's tag list, creates the config if absent, returns a success flag and
a human-readable status string, never raises. -/
def add_random_tag (st : TagStore) (chatId sessionId tag : String) :
    Bool × String × TagStore :=
  match st.cfg chatId with
  | none =>
      (true, "已添加随机搜索标签: " ++ tag,
        st.setCfg chatId ⟨sessionId, [tag], false⟩)
  | some c =>
      (true, "已添加随机搜索标签: " ++ tag,
        st.setCfg chatId { c with sessionId := sessionId, tags := c.tags ++ [tag] })

/-- Modelled from the spec: `remove_random_tag` of §4.1 — `index` is
0-based internally; fails with a `NotFoundError`-class message, mutating
nothing, if there is no configuration or the index is negative or ≥
length; on success removes the indexed element. -/
def remove_random_tag (st : TagStore) (chatId : String) (idx : Int) :
    Bool × String × TagStore :=
  match st.cfg chatId with
  | none => (false, "当前群聊没有配置随机搜索标签。", st)
  | some c =>
      if 0 ≤ idx ∧ idx < (c.tags.length : Int) then
        (true, "已删除随机搜索标签。",
          st.setCfg chatId { c with tags := c.tags.eraseIdx idx.toNat })
      else
        (false, "标签序号超出范围。", st)

/-- Modelled from the spec: `get_random_tags` of §4.1 — read-only ordered
sequence, empty if no config exists. -/
def get_random_tags (st : TagStore) (chatId : String) : List String :=
  match st.cfg chatId with
  | none => []
  | some c => c.tags

/-- Modelled from the spec: `get_random_search_status` of §4.1 —
`(has_config, is_suspended)`; no config (including an empty tag list,
per the empty-after-removal invariant of §3) reports `(false, false)`. -/
def get_random_search_status (st : TagStore) (chatId : String) : Bool × Bool :=
  match st.cfg chatId with
  | none => (false, false)
  | some c => if c.tags.isEmpty then (false, false) else (true, c.suspended)

/-- Modelled from the spec: `suspend_random_search` of §4.1 — the store
simply flips the flag and reports success. -/
def suspend_random_search (st : TagStore) (chatId : String) :
    Bool × String × TagStore :=
  match st.cfg chatId with
  | none => (false, "当前群聊没有配置随机搜索标签。", st)
  | some c =>
      (true, "已暂停当前群聊的随机搜索。", st.setCfg chatId { c with suspended := true })

/-- Modelled from the spec: `resume_random_search` of §4.1 — the store
simply flips the flag and reports success. -/
def resume_random_search (st : TagStore) (chatId : String) :
    Bool × String × TagStore :=
  match st.cfg chatId with
  | none => (false, "当前群聊没有配置随机搜索标签。", st)
  | some c =>
      (true, "已恢复当前群聊的随机搜索。", st.setCfg chatId { c with suspended := false })

/-! ## Scheduling Core (`utils/random_search`), modelled from the spec -/

/-- Modelled from the spec: the in-memory state of the
`RandomSearchService` scheduling core of §4.2 — FIFO work queue of chat
identities, the chats whose execution lock is currently held, the
per-chat `next_fire_at` table, the chats suspended from tick
eligibility, the lazily created execution-lock table, and whether the
queue-processor task is running. -/
structure CoreState where
  queue : List String
  executing : List String
  nextFireAt : List (String × Nat)
  suspendedGroups : List String
  lockChats : List String
  processorRunning : Bool
  deriving Repr, DecidableEq

/-- Modelled from the spec: a chat is `Queued` when present in the work
queue and `Executing` while its lock is held (§4.2 state machine). -/
def CoreState.busy (core : CoreState) (chatId : String) : Prop :=
  chatId ∈ core.queue ∨ chatId ∈ core.executing

instance (core : CoreState) (chatId : String) : Decidable (core.busy chatId) := by
  unfold CoreState.busy; infer_instance

/-- Modelled from the spec: `force_execute_group` of §4.2 — enqueues the
chat immediately regardless of its timer state, but returns false and
enqueues nothing if the chat is already `Queued` or `Executing`. -/
def force_execute_group (core : CoreState) (chatId : String) : Bool × CoreState :=
  if core.busy chatId then (false, core)
  else (true, { core with queue := core.queue ++ [chatId] })

/-- Modelled from the spec: `suspend_group_search` of §4.2 — removes the
chat from future tick eligibility; does not cancel an in-flight
execution. -/
def suspend_group_search (core : CoreState) (chatId : String) : CoreState :=
  { core with suspendedGroups := chatId :: core.suspendedGroups }

/-- Modelled from the spec: `resume_group_search` of §4.2 — re-admits the
chat and schedules its next fire time from now plus a fresh random
delay. -/
def resume_group_search (core : CoreState) (chatId : String) (now delay : Nat) :
    CoreState :=
  { core with
    suspendedGroups := core.suspendedGroups.filter (· ≠ chatId),
    nextFireAt := (chatId, now + delay) ::
      core.nextFireAt.filter (fun p => p.1 ≠ chatId) }

/-- Modelled from the spec: one periodic tick (§4.2 timer mechanism) —
scans all non-suspended chats whose `next_fire_at` has elapsed and
enqueues them, respecting `in_queue` so a chat already queued is not
enqueued twice. -/
def tick (core : CoreState) (now : Nat) : CoreState :=
  let fresh := (core.nextFireAt.filter (fun p =>
      p.2 ≤ now ∧ p.1 ∉ core.suspendedGroups ∧ p.1 ∉ core.queue)).map Prod.fst
  { core with queue := core.queue ++ fresh }

/-- Modelled from the spec: the status snapshot shape of §6 —
`queue_size`, `is_queue_processor_running`, `active_groups`, and
`execution_locks` mapping chat id to a lock-held flag. -/
structure QueueStatus where
  queue_size : Nat
  is_queue_processor_running : Bool
  active_groups : List String
  execution_locks : List (String × Bool)
  deriving Repr, DecidableEq

/-- Modelled from the spec: `get_queue_status` of §4.2 — a point-in-time
snapshot reading only sizes and keys, never waiting on a lock. -/
def get_queue_status (core : CoreState) : QueueStatus :=
  { queue_size := core.queue.length,
    is_queue_processor_running := core.processorRunning,
    active_groups := core.nextFireAt.map Prod.fst,
    execution_locks := core.lockChats.map (fun c => (c, decide (c ∈ core.executing))) }

/-! ## Command handlers (`handlers/random_illust.py`), embedded from the
source -/

/-- Python `str.strip()`: drops leading and trailing whitespace. -/
def pyStrip (s : String) : String :=
  ⟨((s.data.dropWhile Char.isWhitespace).reverse.dropWhile Char.isWhitespace).reverse⟩

/-- Python `str.isdigit` on the ASCII digit strings the command accepts:
true exactly when the string is non-empty and every character is a
digit. -/
def pyIsDigit (s : String) : Bool :=
  s ≠ "" && s.toList.all Char.isDigit

/-- Python `int(...)` on a digit string. -/
def strToNat (s : String) : Nat :=
  s.toList.foldl (fun a c => a * 10 + (c.toNat - 48)) 0

/-- Outcome of a handler that may call one mutating Tag Store operation:
the replies yielded, whether the store operation was invoked, the
success flag it returned, and the resulting store. -/
structure StoreOut where
  replies : List String
  storeCalled : Bool
  ok : Bool
  store : TagStore
  deriving Repr, DecidableEq

/-- `RandomIllustHandler.pixiv_random_add`: strips the tag text, rejects
empty input, runs the external validator (passed abstractly), and only
then calls `add_random_tag(chat_id, session_id, cleaned_tags)` and
relays its message. -/
def pixiv_random_add (validator : String → Bool × String) (st : TagStore)
    (e : Event) (tags : String) : StoreOut :=
  let cleaned := pyStrip tags
  if cleaned = "" then
    ⟨["请输入要添加的随机搜索标签。"], false, false, st⟩
  else if (validator cleaned).1 = false then
    ⟨[(validator cleaned).2], false, false, st⟩
  else
    let r := add_random_tag st (resolveChatId e) e.umo cleaned
    ⟨[r.2.1], true, r.1, r.2.2⟩

/-- `RandomIllustHandler.pixiv_random_del`: rejects a non-digit index
string with a usage prompt, otherwise converts the 1-based user index to
the 0-based store index (`int(index) - 1`) and calls
`remove_random_tag`. -/
def pixiv_random_del (st : TagStore) (e : Event) (index : String) : StoreOut :=
  if pyIsDigit index = false then
    ⟨["请输入要删除的标签序号 (数字)。可通过 /pixiv_random_list 查看。"],
      false, false, st⟩
  else
    let idx : Int := (strToNat index : Int) - 1
    let r := remove_random_tag st (resolveChatId e) idx
    ⟨[r.2.1], true, r.1, r.2.2⟩

/-- The numbered tag lines of `pixiv_random_list`: `f"{i+1}. {tag}"` for
each stored tag in order. -/
def listLines (tags : List String) : List String :=
  tags.enum.map (fun p => toString (p.1 + 1) ++ ". " ++ p.2)

/-- The full list message of `pixiv_random_list` (header plus one line
per tag, each newline-terminated). -/
def listMsg (tags : List String) : String :=
  "当前随机搜索标签列表：\n" ++ String.join ((listLines tags).map (· ++ "\n"))

/-- `RandomIllustHandler.pixiv_random_list`: reads the chat's tags,
replies with a no-tags message when empty and the numbered listing
otherwise; calls no mutating operation, so the store is returned
unchanged. -/
def pixiv_random_list (st : TagStore) (e : Event) : List String × TagStore :=
  let tags := get_random_tags st (resolveChatId e)
  if tags.isEmpty then (["当前没有任何随机搜索标签。"], st)
  else ([listMsg tags], st)

/-- Outcome of the suspend/resume handlers: the replies, whether the Tag
Store suspend/resume operation was invoked, whether the Scheduling Core
was invoked, and the resulting store and core states. -/
structure CtrlOut where
  replies : List String
  storeOpCalled : Bool
  coreCalled : Bool
  store : TagStore
  core : CoreState
  deriving Repr, DecidableEq

/-- `RandomIllustHandler.pixiv_random_suspend`: consults
`get_random_search_status` first; replies no-configuration or
already-suspended without touching store or core; otherwise calls
`suspend_random_search` and, on success, `suspend_group_search`. -/
def pixiv_random_suspend (st : TagStore) (core : CoreState) (e : Event) : CtrlOut :=
  let chatId := resolveChatId e
  let s := get_random_search_status st chatId
  if s.1 = false then
    ⟨["当前群聊没有配置随机搜索标签。"], false, false, st, core⟩
  else if s.2 then
    ⟨["当前群聊的随机搜索已经处于暂停状态。"], false, false, st, core⟩
  else
    let r := suspend_random_search st chatId
    if r.1 then
      ⟨[r.2.1], true, true, r.2.2, suspend_group_search core chatId⟩
    else
      ⟨[r.2.1], true, false, r.2.2, core⟩

/-- `RandomIllustHandler.pixiv_random_resume`: consults
`get_random_search_status` first; replies no-configuration or
already-running without touching store or core; otherwise calls
`resume_random_search` and, on success, `resume_group_search`. -/
def pixiv_random_resume (st : TagStore) (core : CoreState) (e : Event)
    (now delay : Nat) : CtrlOut :=
  let chatId := resolveChatId e
  let s := get_random_search_status st chatId
  if s.1 = false then
    ⟨["当前群聊没有配置随机搜索标签。"], false, false, st, core⟩
  else if s.2 = false then
    ⟨["当前群聊的随机搜索已经处于运行状态。"], false, false, st, core⟩
  else
    let r := resume_random_search st chatId
    if r.1 then
      ⟨[r.2.1], true, true, r.2.2, resume_group_search core chatId now delay⟩
    else
      ⟨[r.2.1], true, false, r.2.2, core⟩

/-- The lines of the status message built by `pixiv_random_status`, in
order: header, queue size, processor-running flag, active group count,
the active group listing when non-empty, and the lock-table size. -/
def statusLines (s : QueueStatus) : List String :=
  ["随机搜索队列状态：",
    "队列大小: " ++ toString s.queue_size,
    "队列处理器运行中: " ++ (if s.is_queue_processor_running then "是" else "否"),
    "活跃群组数量: " ++ toString s.active_groups.length]
  ++ (if s.active_groups.isEmpty then []
      else ["活跃群组: " ++ String.intercalate ", " s.active_groups])
  ++ ["总锁状态: " ++ toString s.execution_locks.length ++ " 个群组"]

/-- `RandomIllustHandler.pixiv_random_status`: renders the
`get_queue_status` snapshot as a single message. -/
def pixiv_random_status (core : CoreState) : List String :=
  [String.join ((statusLines (get_queue_status core)).map (· ++ "\n"))]

/-- Outcome of the force handler: replies, whether
`force_execute_group` was invoked and what it returned, and the
resulting core state. -/
structure ForceOut where
  replies : List String
  coreCalled : Bool
  forced : Bool
  core : CoreState
  deriving Repr, DecidableEq

/-- `RandomIllustHandler.pixiv_random_force`: consults only
`has_config`; when a configuration exists it calls
`force_execute_group` (regardless of the suspended flag) and maps its
boolean to the success or already-busy reply. -/
def pixiv_random_force (st : TagStore) (core : CoreState) (e : Event) : ForceOut :=
  let chatId := resolveChatId e
  let s := get_random_search_status st chatId
  if s.1 = false then
    ⟨["当前群聊没有配置随机搜索标签。"], false, false, core⟩
  else
    let r := force_execute_group core chatId
    if r.1 then
      ⟨["已强制将当前群聊加入执行队列，请稍等..."], true, true, r.2⟩
    else
      ⟨["强制执行失败，群组可能正在执行中。"], true, false, r.2⟩

/-! ## Plugin lifecycle (`main.py`), embedded from the source -/

/-- The background resources of `PixivSearchPlugin` that `__init__`
starts and `terminate` is supposed to release.  `refreshTask` is
`some done` when `self._refresh_task` holds a task (`done` is its
completion state) and `none` when it is `None`; `__init__` leaves it
`None` (the created refresh task is never assigned to the field). -/
structure PluginState where
  subServiceRunning : Bool
  refreshTask : Option Bool
  httpSessionOpen : Bool
  randomTickRunning : Bool
  randomProcessorRunning : Bool
  deriving Repr, DecidableEq

/-- `PixivSearchPlugin.terminate`: stops the subscription service,
cancels `self._refresh_task` when it is set and not done, and closes the
HTTP session.  It performs no call on `random_search_service`. -/
def terminate (s : PluginState) : PluginState :=
  let s1 := { s with subServiceRunning := false }
  let s2 :=
    match s1.refreshTask with
    | some d => if d = false then { s1 with refreshTask := some true } else s1
    | none => s1
  { s2 with httpSessionOpen := false }

/-- The plugin state right after `PixivSearchPlugin.__init__`: the
random search service has been started (`start()` launches the tick
generator and queue processor), `_refresh_task` is still `None`
(the created task is never stored), and no HTTP session exists yet. -/
def initPluginState (subEnabled : Bool) : PluginState :=
  { subServiceRunning := subEnabled,
    refreshTask := none,
    httpSessionOpen := false,
    randomTickRunning := true,
    randomProcessorRunning := true }

/-! ## Store lemmas -/

theorem findCfg_setCfgList (l : List (String × ChatSearchConfig))
    (c : String) (v : ChatSearchConfig) : findCfg (setCfgList l c v) c = some v := by
  induction l with
  | nil => simp [setCfgList, findCfg]
  | cons hd tl ih =>
      obtain ⟨k, w⟩ := hd
      by_cases hk : k = c
      · simp [setCfgList, findCfg, hk]
      · simp [setCfgList, findCfg, hk, ih]

theorem TagStore.cfg_setCfg (st : TagStore) (c : String) (v : ChatSearchConfig) :
    (st.setCfg c v).cfg c = some v :=
  findCfg_setCfgList st.configs c v

/-! ## C1: remove-tag index translation -/

/-- C1: for the remove-tag command, user-facing index string `"1"`
removes the first element of the stored 0-based tag list, while index
`"0"` or any index string greater than the list length produces a
`NotFoundError`-class failure (`ok = false`) with the stored tag list
left unchanged. -/
theorem C1_remove_tag_index_translation
    (st : TagStore) (e : Event) (c : ChatSearchConfig)
    (hc : st.cfg (resolveChatId e) = some c) (hne : c.tags ≠ [])
    (s : String) (n : Nat) (hd : pyIsDigit s = true) (hs : strToNat s = n)
    (hn : c.tags.length < n) :
    (pixiv_random_del st e "1").ok = true ∧
    (pixiv_random_del st e "1").store.cfg (resolveChatId e) =
      some { c with tags := c.tags.tail } ∧
    (pixiv_random_del st e "0").ok = false ∧
    (pixiv_random_del st e "0").store = st ∧
    (pixiv_random_del st e s).ok = false ∧
    (pixiv_random_del st e s).store = st := by
  have hlen : 0 < (c.tags.length : Int) := by
    exact_mod_cast List.length_pos.mpr hne
  have h1 : pixiv_random_del st e "1" =
      ⟨["已删除随机搜索标签。"], true, true,
        st.setCfg (resolveChatId e) { c with tags := c.tags.eraseIdx 0 }⟩ := by
    simp only [pixiv_random_del, show pyIsDigit "1" = true from by decide,
      Bool.true_eq_false, if_false, show strToNat "1" = 1 from by decide]
    simp only [remove_random_tag, hc]
    rw [if_pos ⟨by norm_num, by simpa using hlen⟩]
    rfl
  have h0 : pixiv_random_del st e "0" = ⟨["标签序号超出范围。"], true, false, st⟩ := by
    simp only [pixiv_random_del, show pyIsDigit "0" = true from by decide,
      Bool.true_eq_false, if_false, show strToNat "0" = 0 from by decide]
    simp only [remove_random_tag, hc]
    rw [if_neg (by norm_num)]
  have hbig : pixiv_random_del st e s = ⟨["标签序号超出范围。"], true, false, st⟩ := by
    simp only [pixiv_random_del, hd, Bool.true_eq_false, if_false, hs]
    simp only [remove_random_tag, hc]
    rw [if_neg]
    rintro ⟨-, hlt⟩
    have : (n : Int) - 1 < (c.tags.length : Int) := hlt
    omega
  have htail : c.tags.eraseIdx 0 = c.tags.tail := by
    cases c.tags with
    | nil => rfl
    | cons a t => rfl
  refine ⟨by rw [h1], ?_, by rw [h0], by rw [h0], by rw [hbig], by rw [hbig]⟩
  rw [h1]
  simp only [htail]
  exact TagStore.cfg_setCfg st (resolveChatId e) _

/-- Witness for C1 on a concrete store with tags `["cat", "dog"]` and
out-of-range user index `"5"`. -/
theorem C1_remove_tag_index_translation_witness :
    (pixiv_random_del ⟨[("g", ⟨"s", ["cat", "dog"], false⟩)]⟩ ⟨"g", "u", "mo"⟩ "1").ok
      = true ∧
    (pixiv_random_del ⟨[("g", ⟨"s", ["cat", "dog"], false⟩)]⟩ ⟨"g", "u", "mo"⟩
      "1").store.cfg (resolveChatId ⟨"g", "u", "mo"⟩) =
      some ⟨"s", ["dog"], false⟩ ∧
    (pixiv_random_del ⟨[("g", ⟨"s", ["cat", "dog"], false⟩)]⟩ ⟨"g", "u", "mo"⟩ "0").ok
      = false ∧
    (pixiv_random_del ⟨[("g", ⟨"s", ["cat", "dog"], false⟩)]⟩ ⟨"g", "u", "mo"⟩
      "0").store = ⟨[("g", ⟨"s", ["cat", "dog"], false⟩)]⟩ ∧
    (pixiv_random_del ⟨[("g", ⟨"s", ["cat", "dog"], false⟩)]⟩ ⟨"g", "u", "mo"⟩ "5").ok
      = false ∧
    (pixiv_random_del ⟨[("g", ⟨"s", ["cat", "dog"], false⟩)]⟩ ⟨"g", "u", "mo"⟩
      "5").store = ⟨[("g", ⟨"s", ["cat", "dog"], false⟩)]⟩ :=
  C1_remove_tag_index_translation ⟨[("g", ⟨"s", ["cat", "dog"], false⟩)]⟩
    ⟨"g", "u", "mo"⟩ ⟨"s", ["cat", "dog"], false⟩ (by decide) (by decide)
    "5" 5 (by decide) (by decide) (by decide)

/-! ## C7: non-numeric index is rejected synchronously -/

/-- C7: for every index string that is not composed solely of digits
(including the empty string), the remove-tag handler replies with the
usage prompt, `remove_random_tag` is never called, and the store is
unchanged. -/
theorem C7_nonnumeric_index_rejected (st : TagStore) (e : Event) (s : String)
    (h : s = "" ∨ ∃ ch ∈ s.toList, ch.isDigit = false) :
    (pixiv_random_del st e s).replies =
      ["请输入要删除的标签序号 (数字)。可通过 /pixiv_random_list 查看。"] ∧
    (pixiv_random_del st e s).storeCalled = false ∧
    (pixiv_random_del st e s).store = st := by
  have hdig : pyIsDigit s = false := by
    rcases h with h | ⟨ch, hmem, hch⟩
    · subst h; rfl
    · have hnall : ¬ s.toList.all Char.isDigit = true := by
        rw [List.all_eq_true]
        intro hall
        exact absurd (hall ch hmem) (by simp [hch])
      simp only [pyIsDigit, Bool.and_eq_false_iff]
      exact Or.inr (Bool.eq_false_iff.mpr hnall)
  simp [pixiv_random_del, hdig]

/-- Witness for C7 at the non-numeric index `"abc"`. -/
theorem C7_nonnumeric_index_rejected_witness :
    (pixiv_random_del ⟨[]⟩ ⟨"g", "u", "mo"⟩ "abc").replies =
      ["请输入要删除的标签序号 (数字)。可通过 /pixiv_random_list 查看。"] ∧
    (pixiv_random_del ⟨[]⟩ ⟨"g", "u", "mo"⟩ "abc").storeCalled = false ∧
    (pixiv_random_del ⟨[]⟩ ⟨"g", "u", "mo"⟩ "abc").store = ⟨[]⟩ :=
  C7_nonnumeric_index_rejected ⟨[]⟩ ⟨"g", "u", "mo"⟩ "abc"
    (Or.inr ⟨'a', by decide, by decide⟩)

/-! ## C6: add-tag validation -/

/-- C6: the add-tag handler is total (it always returns a reply and a
store, never raising), and for every input whose stripped text is empty
or rejected by the external validator it replies with the error message
without invoking `add_random_tag`; otherwise it invokes `add_random_tag`
— appending the stripped tag to the chat's stored list — and replies
with the returned status string. -/
theorem C6_add_tag_validation (validator : String → Bool × String)
    (st : TagStore) (e : Event) (tags : String) :
    (pyStrip tags = "" →
      (pixiv_random_add validator st e tags).replies = ["请输入要添加的随机搜索标签。"] ∧
      (pixiv_random_add validator st e tags).storeCalled = false ∧
      (pixiv_random_add validator st e tags).store = st) ∧
    (pyStrip tags ≠ "" → (validator (pyStrip tags)).1 = false →
      (pixiv_random_add validator st e tags).replies = [(validator (pyStrip tags)).2] ∧
      (pixiv_random_add validator st e tags).storeCalled = false ∧
      (pixiv_random_add validator st e tags).store = st) ∧
    (pyStrip tags ≠ "" → (validator (pyStrip tags)).1 = true →
      (pixiv_random_add validator st e tags).storeCalled = true ∧
      (pixiv_random_add validator st e tags).ok = true ∧
      (pixiv_random_add validator st e tags).replies =
        [(add_random_tag st (resolveChatId e) e.umo (pyStrip tags)).2.1] ∧
      get_random_tags (pixiv_random_add validator st e tags).store (resolveChatId e) =
        get_random_tags st (resolveChatId e) ++ [pyStrip tags]) := by
  refine ⟨fun hemp => ?_, fun hne hrej => ?_, fun hne hok => ?_⟩
  · simp [pixiv_random_add, hemp]
  · simp [pixiv_random_add, hne, hrej]
  · have hrw : (validator (pyStrip tags)).1 = false ↔ False := by simp [hok]
    refine ⟨?_, ?_, ?_, ?_⟩ <;>
      simp only [pixiv_random_add, if_neg hne, hrw, if_false] <;>
      cases hc : st.cfg (resolveChatId e) <;>
        simp [add_random_tag, hc, get_random_tags, TagStore.cfg_setCfg]

/-- Witness for C6 with a validator that rejects the text `"bad"`,
exercised on the empty, rejected and accepted paths. -/
theorem C6_add_tag_validation_witness :
    ((pixiv_random_add (fun s => (s ≠ "bad", "标签格式不正确"))
        ⟨[]⟩ ⟨"g", "u", "mo"⟩ "  ").replies = ["请输入要添加的随机搜索标签。"] ∧
      (pixiv_random_add (fun s => (s ≠ "bad", "标签格式不正确"))
        ⟨[]⟩ ⟨"g", "u", "mo"⟩ "  ").storeCalled = false ∧
      (pixiv_random_add (fun s => (s ≠ "bad", "标签格式不正确"))
        ⟨[]⟩ ⟨"g", "u", "mo"⟩ "  ").store = ⟨[]⟩) ∧
    ((pixiv_random_add (fun s => (s ≠ "bad", "标签格式不正确"))
        ⟨[]⟩ ⟨"g", "u", "mo"⟩ " bad ").replies = ["标签格式不正确"] ∧
      (pixiv_random_add (fun s => (s ≠ "bad", "标签格式不正确"))
        ⟨[]⟩ ⟨"g", "u", "mo"⟩ " bad ").storeCalled = false) ∧
    ((pixiv_random_add (fun s => (s ≠ "bad", "标签格式不正确"))
        ⟨[]⟩ ⟨"g", "u", "mo"⟩ " cat ").storeCalled = true ∧
      get_random_tags (pixiv_random_add (fun s => (s ≠ "bad", "标签格式不正确"))
        ⟨[]⟩ ⟨"g", "u", "mo"⟩ " cat ").store (resolveChatId ⟨"g", "u", "mo"⟩) =
        get_random_tags ⟨[]⟩ (resolveChatId ⟨"g", "u", "mo"⟩) ++ [pyStrip " cat "]) := by
  have h1 := (C6_add_tag_validation (fun s => (s ≠ "bad", "标签格式不正确"))
    ⟨[]⟩ ⟨"g", "u", "mo"⟩ "  ").1 (by decide)
  have h2 := (C6_add_tag_validation (fun s => (s ≠ "bad", "标签格式不正确"))
    ⟨[]⟩ ⟨"g", "u", "mo"⟩ " bad ").2.1 (by decide) (by decide)
  have h3 := (C6_add_tag_validation (fun s => (s ≠ "bad", "标签格式不正确"))
    ⟨[]⟩ ⟨"g", "u", "mo"⟩ " cat ").2.2 (by decide) (by decide)
  exact ⟨⟨h1.1, h1.2.1, h1.2.2⟩, ⟨h2.1, h2.2.1⟩, h3.1, h3.2.2.2⟩

/-! ## C8: list-tags is read-only and order-preserving -/

/-- C8: the list-tags handler mutates nothing (the store comes back
unchanged); with no stored tags it replies with the no-tags message,
and otherwise it replies with the listing whose `k`-th line renders the
`k`-th stored tag (insertion order) under the 1-based display index
`k + 1`. -/
theorem C8_list_tags_readonly_ordered (st : TagStore) (e : Event) :
    (pixiv_random_list st e).2 = st ∧
    (get_random_tags st (resolveChatId e) = [] →
      (pixiv_random_list st e).1 = ["当前没有任何随机搜索标签。"]) ∧
    (get_random_tags st (resolveChatId e) ≠ [] →
      (pixiv_random_list st e).1 = [listMsg (get_random_tags st (resolveChatId e))]) ∧
    (listLines (get_random_tags st (resolveChatId e))).length =
      (get_random_tags st (resolveChatId e)).length ∧
    (∀ k, (listLines (get_random_tags st (resolveChatId e))).get? k =
      ((get_random_tags st (resolveChatId e)).get? k).map
        (fun t => toString (k + 1) ++ ". " ++ t)) := by
  refine ⟨?_, fun hemp => ?_, fun hne => ?_, ?_, fun k => ?_⟩
  · unfold pixiv_random_list
    by_cases hx : (get_random_tags st (resolveChatId e)).isEmpty <;> simp [hx]
  · simp [pixiv_random_list, hemp]
  · simp [pixiv_random_list, List.isEmpty_iff, hne]
  · simp [listLines]
  · simp [listLines, List.get?_eq_getElem?, List.getElem?_map, List.getElem?_enum,
      Option.map_map]
    rfl

/-- Witness for C8 on a store holding the tags `["cat", "dog"]`. -/
theorem C8_list_tags_readonly_ordered_witness :
    (pixiv_random_list ⟨[("g", ⟨"s", ["cat", "dog"], false⟩)]⟩ ⟨"g", "u", "mo"⟩).2 =
      ⟨[("g", ⟨"s", ["cat", "dog"], false⟩)]⟩ ∧
    (pixiv_random_list ⟨[("g", ⟨"s", ["cat", "dog"], false⟩)]⟩ ⟨"g", "u", "mo"⟩).1 =
      [listMsg (get_random_tags ⟨[("g", ⟨"s", ["cat", "dog"], false⟩)]⟩
        (resolveChatId ⟨"g", "u", "mo"⟩))] ∧
    (listLines (get_random_tags ⟨[("g", ⟨"s", ["cat", "dog"], false⟩)]⟩
      (resolveChatId ⟨"g", "u", "mo"⟩))).get? 1 =
      some (toString (1 + 1) ++ ". " ++ "dog") := by
  have h := C8_list_tags_readonly_ordered
    ⟨[("g", ⟨"s", ["cat", "dog"], false⟩)]⟩ ⟨"g", "u", "mo"⟩
  refine ⟨h.1, h.2.2.1 (by decide), ?_⟩
  have h1 := h.2.2.2.2 1
  rw [h1]
  rfl

/-! ## C4: suspend/resume reject redundant calls at the command layer -/

/-- C4: both the suspend and resume handlers consult
`get_random_search_status` first; with no configuration they reply with
the no-configuration message, suspending an already-suspended chat or
resuming an already-active chat replies with the already-in-state
message, and in every one of these cases neither the store's
suspend/resume operation nor the Scheduling Core is invoked and both
store and core are unchanged. -/
theorem C4_suspend_resume_redundant_rejected (st : TagStore) (core : CoreState)
    (e : Event) (now delay : Nat) :
    ((get_random_search_status st (resolveChatId e)).1 = false →
      pixiv_random_suspend st core e =
        ⟨["当前群聊没有配置随机搜索标签。"], false, false, st, core⟩ ∧
      pixiv_random_resume st core e now delay =
        ⟨["当前群聊没有配置随机搜索标签。"], false, false, st, core⟩) ∧
    ((get_random_search_status st (resolveChatId e)).1 = true →
      (get_random_search_status st (resolveChatId e)).2 = true →
      pixiv_random_suspend st core e =
        ⟨["当前群聊的随机搜索已经处于暂停状态。"], false, false, st, core⟩) ∧
    ((get_random_search_status st (resolveChatId e)).1 = true →
      (get_random_search_status st (resolveChatId e)).2 = false →
      pixiv_random_resume st core e now delay =
        ⟨["当前群聊的随机搜索已经处于运行状态。"], false, false, st, core⟩) := by
  refine ⟨fun hnc => ⟨?_, ?_⟩, fun hc hsus => ?_, fun hc hact => ?_⟩
  · simp [pixiv_random_suspend, hnc]
  · simp [pixiv_random_resume, hnc]
  · simp [pixiv_random_suspend, hc, hsus]
  · simp [pixiv_random_resume, hc, hact]

/-- Witness for C4: no-configuration, already-suspended and
already-active stores. -/
theorem C4_suspend_resume_redundant_rejected_witness :
    (pixiv_random_suspend ⟨[]⟩
        ⟨[], [], [], [], [], true⟩ ⟨"g", "u", "mo"⟩ =
      ⟨["当前群聊没有配置随机搜索标签。"], false, false, ⟨[]⟩,
        ⟨[], [], [], [], [], true⟩⟩) ∧
    (pixiv_random_suspend ⟨[("g", ⟨"s", ["cat"], true⟩)]⟩
        ⟨[], [], [], [], [], true⟩ ⟨"g", "u", "mo"⟩ =
      ⟨["当前群聊的随机搜索已经处于暂停状态。"], false, false,
        ⟨[("g", ⟨"s", ["cat"], true⟩)]⟩, ⟨[], [], [], [], [], true⟩⟩) ∧
    (pixiv_random_resume ⟨[("g", ⟨"s", ["cat"], false⟩)]⟩
        ⟨[], [], [], [], [], true⟩ ⟨"g", "u", "mo"⟩ 0 60 =
      ⟨["当前群聊的随机搜索已经处于运行状态。"], false, false,
        ⟨[("g", ⟨"s", ["cat"], false⟩)]⟩, ⟨[], [], [], [], [], true⟩⟩) :=
  ⟨(C4_suspend_resume_redundant_rejected ⟨[]⟩ ⟨[], [], [], [], [], true⟩
      ⟨"g", "u", "mo"⟩ 0 60).1 (by decide) |>.1,
   (C4_suspend_resume_redundant_rejected ⟨[("g", ⟨"s", ["cat"], true⟩)]⟩
      ⟨[], [], [], [], [], true⟩ ⟨"g", "u", "mo"⟩ 0 60).2.1 (by decide) (by decide),
   (C4_suspend_resume_redundant_rejected ⟨[("g", ⟨"s", ["cat"], false⟩)]⟩
      ⟨[], [], [], [], [], true⟩ ⟨"g", "u", "mo"⟩ 0 60).2.2 (by decide) (by decide)⟩

/-! ## C3: force-execute refuses a busy chat -/

/-- C3: `force_execute_group` returns false and enqueues nothing (the
core state is unchanged) whenever the chat is already Queued or
Executing; and, given a configured chat, the force handler replies with
the already-busy message exactly when `force_execute_group` returned
false and with the enqueued-success message exactly when it returned
true. -/
theorem C3_force_execute_busy_refusal (st : TagStore) (core : CoreState)
    (e : Event) (chatId : String)
    (hcfg : (get_random_search_status st (resolveChatId e)).1 = true) :
    (core.busy chatId → force_execute_group core chatId = (false, core)) ∧
    ((pixiv_random_force st core e).replies = ["强制执行失败，群组可能正在执行中。"] ↔
      (force_execute_group core (resolveChatId e)).1 = false) ∧
    ((pixiv_random_force st core e).replies = ["已强制将当前群聊加入执行队列，请稍等..."] ↔
      (force_execute_group core (resolveChatId e)).1 = true) := by
  refine ⟨fun hbusy => ?_, ?_, ?_⟩
  · simp [force_execute_group, hbusy]
  · cases hr : (force_execute_group core (resolveChatId e)).1 <;>
      simp [pixiv_random_force, hcfg, hr]
  · cases hr : (force_execute_group core (resolveChatId e)).1 <;>
      simp [pixiv_random_force, hcfg, hr]

/-- Witness for C3 on a core where the chat is already queued. -/
theorem C3_force_execute_busy_refusal_witness :
    (force_execute_group ⟨["g"], [], [], [], [], true⟩ "g" =
      (false, ⟨["g"], [], [], [], [], true⟩)) ∧
    (pixiv_random_force ⟨[("g", ⟨"s", ["cat"], false⟩)]⟩
        ⟨["g"], [], [], [], [], true⟩ ⟨"g", "u", "mo"⟩).replies =
      ["强制执行失败，群组可能正在执行中。"] := by
  have h := C3_force_execute_busy_refusal ⟨[("g", ⟨"s", ["cat"], false⟩)]⟩
    ⟨["g"], [], [], [], [], true⟩ ⟨"g", "u", "mo"⟩ "g" (by decide)
  exact ⟨h.1 (by simp [CoreState.busy]), h.2.1.mpr (by decide)⟩

/-! ## C5: suspension excludes the tick path, force bypasses it -/

/-- C5: a chat suspended in the scheduling core is never enqueued by the
periodic tick (its queue membership is unchanged by a tick), while the
force handler consults only `has_config`: for a configured chat whose
suspended flag is true it still invokes `force_execute_group`. -/
theorem C5_suspend_excludes_tick_force_bypasses (core : CoreState) (now : Nat)
    (chatId : String) (hsus : chatId ∈ core.suspendedGroups)
    (st : TagStore) (e : Event) (c : ChatSearchConfig)
    (hc : st.cfg (resolveChatId e) = some c) (hne : c.tags ≠ [])
    (_hflag : c.suspended = true) :
    (chatId ∈ (tick core now).queue ↔ chatId ∈ core.queue) ∧
    (pixiv_random_force st core e).coreCalled = true := by
  constructor
  · unfold tick
    simp only [List.mem_append]
    constructor
    · rintro (hq | hfresh)
      · exact hq
      · exfalso
        obtain ⟨p, hp, hp1⟩ := List.mem_map.mp hfresh
        obtain ⟨-, hcond⟩ := List.mem_filter.mp hp
        rw [decide_eq_true_eq] at hcond
        exact hcond.2.1 (hp1 ▸ hsus)
    · exact Or.inl
  · have hstat : get_random_search_status st (resolveChatId e) = (true, c.suspended) := by
      simp [get_random_search_status, hc, List.isEmpty_iff, hne]
    cases hr : (force_execute_group core (resolveChatId e)).1 <;>
      simp [pixiv_random_force, hstat, hr]

/-- Witness for C5: a suspended, configured chat is not enqueued by a
tick whose table says it is due, yet force still reaches the core. -/
theorem C5_suspend_excludes_tick_force_bypasses_witness :
    (("g" ∈ (tick ⟨[], [], [("g", 0)], ["g"], [], true⟩ 5).queue) ↔
      "g" ∈ ([] : List String)) ∧
    (pixiv_random_force ⟨[("g", ⟨"s", ["cat"], true⟩)]⟩
        ⟨[], [], [("g", 0)], ["g"], [], true⟩ ⟨"g", "u", "mo"⟩).coreCalled = true :=
  C5_suspend_excludes_tick_force_bypasses ⟨[], [], [("g", 0)], ["g"], [], true⟩ 5
    "g" (by decide) ⟨[("g", ⟨"s", ["cat"], true⟩)]⟩ ⟨"g", "u", "mo"⟩
    ⟨"s", ["cat"], true⟩ (by decide) (by decide) (by decide)

/-! ## C9: status snapshot shape and rendering -/

/-- C9: the `get_queue_status` snapshot carries exactly the four
specified fields — the queue size (the length of the work queue), the
processor-running boolean, the active group ids, and the lock table as a
chat-id-to-lock-held mapping — and the status command's message contains
one rendered line for each of the four, reading only sizes and keys of
the core state. -/
theorem C9_status_snapshot_shape (core : CoreState) :
    (get_queue_status core).queue_size = core.queue.length ∧
    (get_queue_status core).is_queue_processor_running = core.processorRunning ∧
    (get_queue_status core).active_groups = core.nextFireAt.map Prod.fst ∧
    (get_queue_status core).execution_locks =
      core.lockChats.map (fun c => (c, decide (c ∈ core.executing))) ∧
    ("队列大小: " ++ toString (get_queue_status core).queue_size) ∈
      statusLines (get_queue_status core) ∧
    ("队列处理器运行中: " ++
        (if (get_queue_status core).is_queue_processor_running then "是" else "否")) ∈
      statusLines (get_queue_status core) ∧
    ("活跃群组数量: " ++ toString (get_queue_status core).active_groups.length) ∈
      statusLines (get_queue_status core) ∧
    ("总锁状态: " ++ toString (get_queue_status core).execution_locks.length ++ " 个群组") ∈
      statusLines (get_queue_status core) ∧
    pixiv_random_status core =
      [String.join ((statusLines (get_queue_status core)).map (· ++ "\n"))] := by
  refine ⟨rfl, rfl, rfl, rfl, ?_, ?_, ?_, ?_, rfl⟩ <;>
    simp [statusLines, List.mem_append]

/-! ## C10: uniform chat identity resolution -/

/-- C10: every random-search handler resolves the chat identity as the
group id when present, otherwise the sender id; consequently any two
events from the same (non-empty) group — regardless of sender — drive
every handler to identical behaviour on the same per-group
configuration. -/
theorem C10_uniform_chat_identity (e f : Event)
    (hg : e.groupId = f.groupId) (hne : e.groupId ≠ "") (hu : e.umo = f.umo)
    (validator : String → Bool × String) (st : TagStore) (core : CoreState)
    (tags index : String) (now delay : Nat) :
    resolveChatId e = e.groupId ∧
    pixiv_random_add validator st e tags = pixiv_random_add validator st f tags ∧
    pixiv_random_del st e index = pixiv_random_del st f index ∧
    pixiv_random_list st e = pixiv_random_list st f ∧
    pixiv_random_suspend st core e = pixiv_random_suspend st core f ∧
    pixiv_random_resume st core e now delay = pixiv_random_resume st core f now delay ∧
    pixiv_random_force st core e = pixiv_random_force st core f := by
  have hr : resolveChatId e = resolveChatId f := by
    simp only [resolveChatId, hg]
    rw [hg] at hne
    simp [hne]
  exact ⟨by simp [resolveChatId, hne],
    by simp only [pixiv_random_add, hr, hu],
    by simp only [pixiv_random_del, hr],
    by simp only [pixiv_random_list, hr],
    by simp only [pixiv_random_suspend, hr],
    by simp only [pixiv_random_resume, hr],
    by simp only [pixiv_random_force, hr]⟩

/-- Witness for C10: two members of group `"g"` issue the same remove
command and reach the same configuration. -/
theorem C10_uniform_chat_identity_witness :
    resolveChatId ⟨"g", "alice", "mo"⟩ = "g" ∧
    pixiv_random_add (fun s => (s ≠ "", "err")) ⟨[]⟩ ⟨"g", "alice", "mo"⟩ "cat" =
      pixiv_random_add (fun s => (s ≠ "", "err")) ⟨[]⟩ ⟨"g", "bob", "mo"⟩ "cat" ∧
    pixiv_random_del ⟨[]⟩ ⟨"g", "alice", "mo"⟩ "1" =
      pixiv_random_del ⟨[]⟩ ⟨"g", "bob", "mo"⟩ "1" ∧
    pixiv_random_list ⟨[]⟩ ⟨"g", "alice", "mo"⟩ =
      pixiv_random_list ⟨[]⟩ ⟨"g", "bob", "mo"⟩ ∧
    pixiv_random_suspend ⟨[]⟩ ⟨[], [], [], [], [], true⟩ ⟨"g", "alice", "mo"⟩ =
      pixiv_random_suspend ⟨[]⟩ ⟨[], [], [], [], [], true⟩ ⟨"g", "bob", "mo"⟩ ∧
    pixiv_random_resume ⟨[]⟩ ⟨[], [], [], [], [], true⟩ ⟨"g", "alice", "mo"⟩ 0 60 =
      pixiv_random_resume ⟨[]⟩ ⟨[], [], [], [], [], true⟩ ⟨"g", "bob", "mo"⟩ 0 60 ∧
    pixiv_random_force ⟨[]⟩ ⟨[], [], [], [], [], true⟩ ⟨"g", "alice", "mo"⟩ =
      pixiv_random_force ⟨[]⟩ ⟨[], [], [], [], [], true⟩ ⟨"g", "bob", "mo"⟩ :=
  C10_uniform_chat_identity ⟨"g", "alice", "mo"⟩ ⟨"g", "bob", "mo"⟩
    (by decide) (by decide) (by decide) (fun s => (s ≠ "", "err"))
    ⟨[]⟩ ⟨[], [], [], [], [], true⟩ "cat" "1" 0 60

/-! ## C2: terminate does not cancel the random-search tasks -/

/-- C2 (refuted by the source): `PixivSearchPlugin.terminate` stops the
subscription service, cancels `_refresh_task` and closes the HTTP
session, but performs no call on the random-search service — the tick
generator and queue processor of the scheduling core are left exactly as
they were; in particular, right after `__init__` (which starts both and
never stores the refresh task) they are still running after
`terminate`. -/
theorem C2_terminate_leaves_random_tasks_running (s : PluginState) (sub : Bool) :
    (terminate s).randomTickRunning = s.randomTickRunning ∧
    (terminate s).randomProcessorRunning = s.randomProcessorRunning ∧
    (terminate (initPluginState sub)).randomTickRunning = true ∧
    (terminate (initPluginState sub)).randomProcessorRunning = true ∧
    (initPluginState sub).refreshTask = none := by
  refine ⟨?_, ?_, rfl, rfl, rfl⟩ <;>
    · unfold terminate
      cases hr : s.refreshTask with
      | none => rfl
      | some d => cases d <;> rfl

end PixivReborn
